import Mathlib

/-!
# Verification of the transactional inventory ledger engine

Shallow embedding of the stock-mutation core of the manufacturing
management web application:

* `src/app/api/stock-adjust/route.ts` — manual stock adjustment handler
  (`stockAdjustPOST` below);
* `src/schema.sql`, function `public.adjust_stock` — the guarded SQL
  adjustment routine (`adjust_stock` below);
* the production-run request handler (`productionRunPOST` below);
* the reorder projection of `src/app/dashboard/inventory/page.tsx`
  (`reorderItems` below).

Identifiers (uuids in the source) are modelled as `Nat`; SQL `numeric`
quantities as `ℚ`.  JavaScript numbers, which may be `NaN` or infinite,
are modelled by `JsNum` so that the `Number.isFinite` validation checks
of the handlers are meaningful.  Each storage call performed through the
supabase client may fail at the storage layer; a record of `Bool` fault
flags — one per call site — makes every possible execution of a handler
an explicit input of the embedding.
-/

/-- A JavaScript number: either a finite value (modelled exactly as a
rational) or one of the non-finite values `NaN`, `Infinity`,
`-Infinity`. -/
inductive JsNum : Type
  | fin (q : ℚ)
  | nan
  | posInf
  | negInf
deriving DecidableEq, Repr

namespace JsNum

/-- Models `Number.isFinite`. -/
def isFinite : JsNum → Bool
  | fin _ => true
  | _ => false

/-- The rational value of a finite `JsNum`; only ever applied after an
`isFinite` check has passed (non-finite values map to 0). -/
def toRat : JsNum → ℚ
  | fin q => q
  | _ => 0

/-- JavaScript `<` on numbers: any comparison involving `NaN` is
`false`; infinities compare as expected. -/
def lt : JsNum → JsNum → Bool
  | fin a, fin b => a < b
  | nan, _ => false
  | _, nan => false
  | negInf, fin _ => true
  | negInf, posInf => true
  | negInf, negInf => false
  | fin _, posInf => true
  | posInf, _ => false
  | fin _, negInf => false

/-- JavaScript `>` on numbers. -/
def gt (a b : JsNum) : Bool := lt b a

/-- JavaScript truthiness of a number: `0` and `NaN` are falsy. -/
def truthy : JsNum → Bool
  | fin q => q ≠ 0
  | nan => false
  | posInf => true
  | negInf => true

end JsNum

/-- One row of `public.stock_ledger` (`src/schema.sql`).  `id` is minted
by the store at insert time. -/
structure LedgerEntry where
  id : Nat
  product_id : Nat
  transaction_source_table : String
  transaction_id : Option Nat
  quantity_change : ℚ
  uom : String
  notes : String
  created_by : Nat
deriving DecidableEq, Repr

/-- One row of `public.products_stock`: current stock level of a
product. -/
structure StockRow where
  id : Nat
  product_id : Nat
  quantity : ℚ
  uom : String
deriving DecidableEq, Repr

/-- The fields of `public.products` read by the production-run handler
and the inventory page. -/
structure Product where
  id : Nat
  type : String
  parent_master_batch_id : Option Nat
  reorder_level : ℚ
deriving DecidableEq, Repr

/-- One row of `public.machines`, as read by the production-run
handler. -/
structure Machine where
  id : Nat
  status : String
deriving DecidableEq, Repr

/-- One row of `public.production_runs`, as built by the handler's
`insertData` payload (the optional `run_date` of the request body has no
column in `src/schema.sql` and is omitted from the model). -/
structure ProductionRun where
  id : Nat
  product_id : Nat
  machine_id : Nat
  target_quantity : ℚ
  actual_pieces_produced : ℚ
  waste_quantity : ℚ
  raw_material_id : Option Nat
  raw_material_bags_used : ℚ
  master_batch_id : Option Nat
  master_batch_bags_used : ℚ
  shift : String
  created_by : Nat
deriving DecidableEq, Repr

/-- The durable relational store.  `nextId` mints the identifier of the
next inserted row (uuid generation in the source). -/
structure DB where
  products : List Product
  machines : List Machine
  stocks : List StockRow
  ledger : List LedgerEntry
  runs : List ProductionRun
  nextId : Nat
deriving DecidableEq, Repr

namespace DB

/-- Models `select ... from products_stock where id = rid` (`.single()`). -/
def stockById (d : DB) (rid : Nat) : Option StockRow :=
  d.stocks.find? (fun r => r.id = rid)

/-- Models `select ... from products_stock where product_id = pid` (`.single()`;
the store is expected to hold at most one stock row per product). -/
def stockByProduct (d : DB) (pid : Nat) : Option StockRow :=
  d.stocks.find? (fun r => r.product_id = pid)

/-- Models `select ... from products where id = pid` (`.single()`). -/
def productById (d : DB) (pid : Nat) : Option Product :=
  d.products.find? (fun p => p.id = pid)

/-- Models `select ... from machines where id = mid` (`.single()`). -/
def machineById (d : DB) (mid : Nat) : Option Machine :=
  d.machines.find? (fun m => m.id = mid)

/-- Models `update products_stock set quantity = q where id = rid`. -/
def setStockQty (d : DB) (rid : Nat) (q : ℚ) : DB :=
  { d with stocks := d.stocks.map fun r => if r.id = rid then { r with quantity := q } else r }

/-- Models `insert into stock_ledger ...`, minting a fresh id. -/
def insertLedger (d : DB) (e : Nat → LedgerEntry) : DB :=
  { d with ledger := d.ledger ++ [e d.nextId], nextId := d.nextId + 1 }

/-- Sum of the `quantity_change` of all ledger entries of one product. -/
def ledgerSum (d : DB) (pid : Nat) : ℚ :=
  ((d.ledger.filter (fun e => e.product_id = pid)).map (fun e => e.quantity_change)).sum

end DB

/-! ## Manual stock adjustment: `src/app/api/stock-adjust/route.ts` -/

/-- The parsed JSON body of a manual stock-adjustment request
(`StockAdjustBody`).  The id fields are strings in the source; `none`
stands for a missing/empty (falsy) id and the `uom`/`notes` strings are
falsy exactly when empty. -/
structure AdjustBody where
  product_stock_id : Option Nat
  product_id : Option Nat
  quantity_change : JsNum
  uom : String
  notes : String
deriving DecidableEq, Repr

/-- Outcome of each storage call the handler performs, one flag per call
site (`true` = the supabase call returns an error).  The
`increment_stock` rpc has no flag: `src/schema.sql` defines no such
function, so that rpc call always fails and the fallback runs. -/
structure AdjustFaults where
  ledgerInsertFails : Bool
  stockReadFails : Bool
  stockUpdateFails : Bool
deriving DecidableEq, Repr

/-- No storage fault. -/
def AdjustFaults.none : AdjustFaults := ⟨false, false, false⟩

/-- The error of a stock-adjustment response, one constructor per
`return json({success:false, ...})` site of the handler. -/
inductive AdjustErr : Type
  | unauthorized
  | missingFields
  | badQuantity
  | ledgerInsertFailed
  | stockReadFailed
  | stockUpdateFailed
deriving DecidableEq, Repr

/-- The JSON response of the stock-adjustment handler.  `ledgerId`
models a `ledger_id` field of the success payload: the handler never
sets one (its success body is literally `{ success: true }`). -/
structure AdjustResp where
  success : Bool
  status : Nat
  error : Option AdjustErr
  ledgerId : Option Nat
deriving DecidableEq, Repr

/-- The balance-update fallback of the stock-adjustment handler, run
after the ledger insert (the rpc `increment_stock` fails — no such
function exists in the schema): read the current quantity of stock row
`psid`, then write back `current + qc`, with no negativity check.
`d1` already holds the inserted ledger entry. -/
def adjustFallback (psid : Nat) (qc : ℚ) (f : AdjustFaults) (d1 : DB) : AdjustResp × DB :=
  if f.stockReadFails then (⟨false, 500, some .stockReadFailed, none⟩, d1)
  else
    match d1.stockById psid with
    | Option.none => (⟨false, 500, some .stockReadFailed, none⟩, d1)
    | some row =>
      if f.stockUpdateFails then (⟨false, 500, some .stockUpdateFailed, none⟩, d1)
      else (⟨true, 200, none, none⟩, d1.setStockQty psid (row.quantity + qc))

/-- Handler `POST /api/stock-adjust` (`src/app/api/stock-adjust/route.ts`).
`user` is the authenticated user (`none` = unauthenticated); the JSON
body is taken as already parsed.  Returns the response together with the
store as left by the handler. -/
def stockAdjustPOST (user : Option Nat) (body : AdjustBody) (f : AdjustFaults) (d : DB) :
    AdjustResp × DB :=
  match user with
  | Option.none => (⟨false, 401, some .unauthorized, none⟩, d)
  | some uid =>
    match body.product_stock_id, body.product_id with
    | Option.none, _ => (⟨false, 400, some .missingFields, none⟩, d)
    | _, Option.none => (⟨false, 400, some .missingFields, none⟩, d)
    | some psid, some pid =>
      if body.uom = "" ∨ body.notes = "" then
        (⟨false, 400, some .missingFields, none⟩, d)
      else if ¬ body.quantity_change.isFinite ∨ body.quantity_change = .fin 0 then
        (⟨false, 400, some .badQuantity, none⟩, d)
      else if f.ledgerInsertFails then
        (⟨false, 500, some .ledgerInsertFailed, none⟩, d)
      else
        -- ledger entry inserted first, before any balance change
        adjustFallback psid body.quantity_change.toRat f (d.insertLedger fun i =>
          ⟨i, pid, "products_stock", none, body.quantity_change.toRat, body.uom, body.notes, uid⟩)

/-! ## The SQL routine `public.adjust_stock` (`src/schema.sql`) -/

/-- The `RAISE EXCEPTION` outcomes of `public.adjust_stock`. -/
inductive SqlErr : Type
  | stockRecordNotFound
  | insufficientStock (current requested_change : ℚ)
deriving DecidableEq, Repr

/-- The PL/pgSQL function `public.adjust_stock` of `src/schema.sql`:
locks the stock row matched by both ids, rejects a change that would
drive the quantity negative, otherwise updates the quantity and inserts
one ledger entry in the same transaction, returning the new ledger id.
An exception rolls the transaction back, so the error case carries no
state change. -/
def adjust_stock (p_product_stock_id p_product_id : Nat) (p_quantity_change : ℚ)
    (p_uom p_notes : String) (p_created_by : Nat) (d : DB) :
    Except SqlErr (Nat × DB) :=
  match d.stocks.find? (fun r => r.id = p_product_stock_id ∧ r.product_id = p_product_id) with
  | Option.none => .error .stockRecordNotFound
  | some row =>
    if row.quantity + p_quantity_change < 0 then
      .error (.insufficientStock row.quantity p_quantity_change)
    else
      let d1 := d.setStockQty p_product_stock_id (row.quantity + p_quantity_change)
      .ok (d1.nextId, d1.insertLedger fun i =>
        ⟨i, p_product_id, "products_stock", none, p_quantity_change, p_uom, p_notes, p_created_by⟩)

/-! ## Production runs: the production-run request handler (`src/unnamed/part_004`) -/

/-- The parsed JSON body of a production-run request
(`ProductionRunBody`).  Absent numbers are `JsNum.nan`
(`Number.isFinite(undefined) = false`); the optional `run_date` has no
column in the schema and is not modelled. -/
structure RunBody where
  product_id : Option Nat
  machine_id : Option Nat
  target_quantity : JsNum
  actual_pieces_produced : JsNum
  waste_quantity : Option JsNum
  raw_material_id : Option Nat
  raw_material_bags_used : JsNum
  master_batch_id : Option Nat
  master_batch_bags_used : JsNum
  shift : String
deriving DecidableEq, Repr

/-- One `true` flag per supabase call site of the production-run
handler (`true` = that call returns an error). -/
structure RunFaults where
  productSelectFails : Bool
  machineSelectFails : Bool
  rmStockSelectFails : Bool
  mbStockSelectFails : Bool
  runInsertFails : Bool
  fgLedgerInsertFails : Bool
  fgStockReadFails : Bool
  fgStockUpdateFails : Bool
  rmLedgerInsertFails : Bool
  rmStockReadFails : Bool
  rmStockUpdateFails : Bool
  mbLedgerInsertFails : Bool
  mbStockReadFails : Bool
  mbStockUpdateFails : Bool
deriving DecidableEq, Repr

/-- No storage fault. -/
def RunFaults.none : RunFaults :=
  ⟨false, false, false, false, false, false, false,
   false, false, false, false, false, false, false⟩

/-- The error of a production-run response, one constructor per
`return json({success:false, ...})` site of the handler.  The
insufficiency constructors carry the interpolated quantities of the
source's message templates. -/
inductive RunErr : Type
  | unauthorized
  | missingRequired
  | badShift
  | badActual
  | badRmBags
  | badMbBags
  | productNotFound
  | notFinishedGood
  | machineNotFound
  | machineNotActive
  | rmStockNotFound
  | insufficientRawMaterial (available required : ℚ)
  | mbStockNotFound
  | insufficientMasterBatch (available required : ℚ)
  | runInsertFailed
  | fgLedgerInsertFailed
  | rmLedgerInsertFailed
  | mbLedgerInsertFailed
  | stockReadFailed (product_id : Nat)
  | stockUpdateFailed (product_id : Nat)
deriving DecidableEq, Repr

/-- The JSON response of the production-run handler; on success the
payload is `{ success: true, data: { id: production_run_id } }`. -/
structure RunResp where
  success : Bool
  status : Nat
  error : Option RunErr
  runId : Option Nat
deriving DecidableEq, Repr

/-- Models `insert into production_runs ...`, minting a fresh id. -/
def DB.insertRun (d : DB) (r : Nat → ProductionRun) : DB :=
  { d with runs := d.runs ++ [r d.nextId], nextId := d.nextId + 1 }

/-- The handler's inner helper `updateProductStock`: read the stock row
of `productId`, then write back `quantity + quantityChange` (no
negativity check).  An error string in the source is an error value
here. -/
def updateProductStock (readFails updateFails : Bool) (productId : Nat)
    (quantityChange : ℚ) (d : DB) : Except RunErr DB :=
  if readFails then .error (.stockReadFailed productId)
  else
    match d.stockByProduct productId with
    | Option.none => .error (.stockReadFailed productId)
    | some stockRow =>
      if updateFails then .error (.stockUpdateFailed productId)
      else .ok (d.setStockQty stockRow.id (stockRow.quantity + quantityChange))

/-- One commit-phase leg of the handler: insert the ledger entry for
the leg, then apply the same delta to the product's stock row via
`updateProductStock`.  A failure returns the store as mutated so far —
each step commits independently in the source. -/
def runLeg (ledgerFails readFails updateFails : Bool) (ledgerErr : RunErr)
    (pid : Nat) (delta : ℚ) (leg_uom note : String) (runId uid : Nat) (d : DB) :
    Except (RunErr × DB) DB :=
  if ledgerFails then .error (ledgerErr, d)
  else
    let d1 := d.insertLedger fun i =>
      ⟨i, pid, "production_runs", some runId, delta, leg_uom, note, uid⟩
    match updateProductStock readFails updateFails pid delta d1 with
    | .error e => .error (e, d1)
    | .ok d2 => .ok d2

/-- The master-batch availability check of the pre-flight phase;
guarded by the submitted `master_batch_id` and
`master_batch_bags_used`, not by the product's dependency. -/
def runPreflightMb (product : Product) (body : RunBody) (f : RunFaults) (d : DB) :
    Except RunErr Product :=
  match body.master_batch_id, body.master_batch_bags_used.gt (.fin 0) with
  | some mbid, true =>
    if f.mbStockSelectFails then .error .mbStockNotFound
    else
      match d.stockByProduct mbid with
      | Option.none => .error .mbStockNotFound
      | some mbStock =>
        if JsNum.lt (.fin mbStock.quantity) body.master_batch_bags_used then
          .error (.insufficientMasterBatch mbStock.quantity
            body.master_batch_bags_used.toRat)
        else .ok product
  | _, _ => .ok product

/-- The read-only pre-flight phase of the production-run handler (shift
and quantity validation, product/machine lookup, and the two stock
availability checks), in source order.  Returns the finished-good
product row on success. -/
def runPreflight (pid mid : Nat) (body : RunBody) (f : RunFaults) (d : DB) :
    Except RunErr Product :=
  if ¬ (body.shift = "DAY" ∨ body.shift = "NIGHT") then .error .badShift
  else if ¬ body.actual_pieces_produced.isFinite ∨
      body.actual_pieces_produced.lt (.fin 0) then .error .badActual
  else if ¬ body.raw_material_bags_used.isFinite ∨
      body.raw_material_bags_used.lt (.fin 0) then .error .badRmBags
  else if f.productSelectFails then .error .productNotFound
  else
    match d.productById pid with
    | Option.none => .error .productNotFound
    | some product =>
      if ¬ product.type = "FINISHED_GOOD" then .error .notFinishedGood
      else if product.parent_master_batch_id.isSome ∧
          (¬ body.master_batch_bags_used.isFinite ∨
            body.master_batch_bags_used.lt (.fin 0)) then .error .badMbBags
      else if f.machineSelectFails then .error .machineNotFound
      else
        match d.machineById mid with
        | Option.none => .error .machineNotFound
        | some machine =>
          if ¬ machine.status = "ACTIVE" then .error .machineNotActive
          else
            -- stock availability, raw material first, then master batch;
            -- both guards use the submitted body values
            match body.raw_material_id, body.raw_material_bags_used.gt (.fin 0) with
            | some rmid, true =>
              if f.rmStockSelectFails then .error .rmStockNotFound
              else
                match d.stockByProduct rmid with
                | Option.none => .error .rmStockNotFound
                | some rmStock =>
                  if JsNum.lt (.fin rmStock.quantity) body.raw_material_bags_used then
                    .error (.insufficientRawMaterial rmStock.quantity
                      body.raw_material_bags_used.toRat)
                  else runPreflightMb product body f d
            | _, _ => runPreflightMb product body f d

/-- The commit phase of the production-run handler: the three legs in
fixed order — finished-good credit, raw-material debit, master-batch
debit.  Each leg's guard uses the submitted body values (the
master-batch guard checks `master_batch_id && master_batch_bags_used >
0`, not the product's dependency). -/
def runCommitLegs (pid : Nat) (body : RunBody) (f : RunFaults)
    (runId uid : Nat) (d : DB) : Except (RunErr × DB) DB :=
  (if body.actual_pieces_produced.gt (.fin 0) then
    runLeg f.fgLedgerInsertFails f.fgStockReadFails f.fgStockUpdateFails
      .fgLedgerInsertFailed pid body.actual_pieces_produced.toRat "pcs"
      "Production run: pcs produced" runId uid d
  else .ok d).bind fun d1 =>
  (match body.raw_material_id, body.raw_material_bags_used.gt (.fin 0) with
  | some rmid, true =>
    runLeg f.rmLedgerInsertFails f.rmStockReadFails f.rmStockUpdateFails
      .rmLedgerInsertFailed rmid (-body.raw_material_bags_used.toRat) "bags"
      "Production run: bags consumed" runId uid d1
  | _, _ => .ok d1).bind fun d2 =>
  match body.master_batch_id, body.master_batch_bags_used.gt (.fin 0) with
  | some mbid, true =>
    runLeg f.mbLedgerInsertFails f.mbStockReadFails f.mbStockUpdateFails
      .mbLedgerInsertFailed mbid (-body.master_batch_bags_used.toRat) "bags"
      "Production run: bags consumed" runId uid d2
  | _, _ => .ok d2

/-- The `insertData` payload persisted to `production_runs`: a
non-finite `target_quantity` coerces to 0, a falsy or non-finite
`waste_quantity` to 0, and the master-batch fields are nulled when the
product declares no master-batch dependency. -/
def runInsertData (pid mid : Nat) (body : RunBody) (usesMB : Bool) (uid : Nat)
    (i : Nat) : ProductionRun :=
  { id := i
    product_id := pid
    machine_id := mid
    target_quantity := if body.target_quantity.isFinite then body.target_quantity.toRat else 0
    actual_pieces_produced := body.actual_pieces_produced.toRat
    waste_quantity :=
      match body.waste_quantity with
      | Option.none => 0
      | some w => if w.truthy && w.isFinite then w.toRat else 0
    raw_material_id := body.raw_material_id
    raw_material_bags_used := body.raw_material_bags_used.toRat
    master_batch_id := if usesMB then body.master_batch_id else none
    master_batch_bags_used := if usesMB then body.master_batch_bags_used.toRat else 0
    shift := body.shift
    created_by := uid }

/-- The production-run request handler `POST` (`src/unnamed/part_004`):
authentication, required-field check, pre-flight validation, persist
the `production_runs` record (minting the correlating transaction id),
then the three commit legs.  A leg failure returns an ordinary error
response and leaves every step committed so far in place. -/
def productionRunPOST (user : Option Nat) (body : RunBody) (f : RunFaults) (d : DB) :
    RunResp × DB :=
  match user with
  | Option.none => (⟨false, 401, some .unauthorized, none⟩, d)
  | some uid =>
    match body.product_id, body.machine_id with
    | Option.none, _ => (⟨false, 400, some .missingRequired, none⟩, d)
    | _, Option.none => (⟨false, 400, some .missingRequired, none⟩, d)
    | some pid, some mid =>
      if body.shift = "" then (⟨false, 400, some .missingRequired, none⟩, d)
      else
        match runPreflight pid mid body f d with
        | .error e => (⟨false, 400, some e, none⟩, d)
        | .ok product =>
          if f.runInsertFails then (⟨false, 500, some .runInsertFailed, none⟩, d)
          else
            -- the run insert mints the correlating transaction id d.nextId
            match runCommitLegs pid body f d.nextId uid
                (d.insertRun (runInsertData pid mid body
                  product.parent_master_batch_id.isSome uid)) with
            | .error (e, d2) => (⟨false, 500, some e, none⟩, d2)
            | .ok d2 => (⟨true, 201, none, some d.nextId⟩, d2)

/-! ## Reorder projection: `src/app/dashboard/inventory/page.tsx` -/

/-- One row of the reorder query: `products_stock` joined with the
product columns `sku, name, type, reorder_level`. -/
structure StockJoinRow where
  quantity : ℚ
  uom : String
  sku : String
  name : String
  ptype : String
  reorder_level : ℚ
deriving DecidableEq, Repr

/-- One element of the `reorderItems` array built by the page. -/
structure ReorderItem where
  productName : String
  productSku : String
  productType : String
  quantity : ℚ
  reorderLevel : ℚ
  uom : String
deriving DecidableEq, Repr

/-- The `.map` step of the page's `reorderItems` pipeline. -/
def toReorderItem (r : StockJoinRow) : ReorderItem :=
  ⟨r.name, r.sku, r.ptype, r.quantity, r.reorder_level, r.uom⟩

/-- The reorder query: stock rows joined with their product, restricted
to the types `RAW_MATERIAL` and `MASTER_BATCH` (the `.in(...)` filter of
the query). -/
def reorderQuery (d : DB) : List StockJoinRow :=
  d.stocks.filterMap fun r =>
    (d.productById r.product_id).bind fun p =>
      if p.type = "RAW_MATERIAL" ∨ p.type = "MASTER_BATCH" then
        some ⟨r.quantity, r.uom, "", "", p.type, p.reorder_level⟩
      else none

/-- The page's `reorderItems` pipeline over the fetched rows: map to
items, keep those with `quantity <= reorderLevel`, sort ascending by
quantity. -/
def reorderItems (rows : List StockJoinRow) : List ReorderItem :=
  ((rows.map toReorderItem).filter fun i => i.quantity ≤ i.reorderLevel).mergeSort
    fun a b => a.quantity ≤ b.quantity

/-! ## Operations of the core, for the ledger-sum invariant -/

/-- One invocation of the core: a manual stock adjustment or a
production run, together with its caller and the storage faults of the
execution. -/
inductive CoreOp : Type
  | adjust (user : Option Nat) (body : AdjustBody) (f : AdjustFaults)
  | run (user : Option Nat) (body : RunBody) (f : RunFaults)

/-- Execute one core operation: the success flag of its response and
the store it leaves behind. -/
def CoreOp.apply : CoreOp → DB → Bool × DB
  | .adjust u b f, d => ((stockAdjustPOST u b f d).1.success, (stockAdjustPOST u b f d).2)
  | .run u b f, d => ((productionRunPOST u b f d).1.success, (productionRunPOST u b f d).2)

/-- Invariant 1 of the spec: every stored balance equals the sum of the
ledger entries of its product. -/
def DB.stockInSync (d : DB) : Prop :=
  ∀ r ∈ d.stocks, r.quantity = d.ledgerSum r.product_id

/-- Store well-formedness: row ids are primary keys and each product
has at most one stock row (`products_stock` is read with `.single()`).
-/
def DB.wellFormed (d : DB) : Prop :=
  (d.stocks.map StockRow.id).Nodup ∧ (d.stocks.map StockRow.product_id).Nodup

/-- A manual adjustment's `product_stock_id` and `product_id` are two
independent body fields; this predicate says they denote the same
product: the stock row named by `product_stock_id`, if any, is the
stock row of `product_id`.  A production run reads stock rows by
product id only. -/
def CoreOp.consistentIds : CoreOp → DB → Prop
  | .adjust _ b _, d =>
      ∀ psid row, b.product_stock_id = some psid → d.stockById psid = some row →
        b.product_id = some row.product_id
  | .run _ _ _, _ => True

/-! ## Concrete fixtures for the scenario evaluations -/

/-- A store with one raw-material product whose balance is 15 bags
(spec Scenario D). -/
def dbAdjust : DB :=
  { products := [⟨1, "RAW_MATERIAL", none, 0⟩]
    machines := []
    stocks := [⟨7, 1, 15, "bags"⟩]
    ledger := []
    runs := []
    nextId := 50 }

/-- A manual adjustment of −20 against product 1 / stock row 7. -/
def adjBodyNeg : AdjustBody := ⟨some 7, some 1, .fin (-20), "bags", "manual correction"⟩

/-- A manual adjustment of +5 against product 1 / stock row 7. -/
def adjBodyPlus : AdjustBody := ⟨some 7, some 1, .fin 5, "bags", "receiving"⟩

/-- A store with two products, each with a stock row of quantity 0 and
an empty ledger (so every balance equals its ledger sum). -/
def dbTwoProducts : DB :=
  { products := [⟨1, "RAW_MATERIAL", none, 0⟩, ⟨2, "RAW_MATERIAL", none, 0⟩]
    machines := []
    stocks := [⟨100, 1, 0, "bags"⟩, ⟨200, 2, 0, "bags"⟩]
    ledger := []
    runs := []
    nextId := 300 }

/-- A manual adjustment whose `product_id` names product 1 but whose
`product_stock_id` names the stock row of product 2. -/
def adjBodyMismatch : AdjustBody := ⟨some 200, some 1, .fin 5, "bags", "receiving"⟩

/-- Spec Scenario A store: finished good 1 (no master-batch
dependency, balance 0 pcs), raw material 2 (balance 100 bags), master
batch 3 (balance 50 bags), machine 10 active. -/
def dbRun : DB :=
  { products := [⟨1, "FINISHED_GOOD", none, 0⟩, ⟨2, "RAW_MATERIAL", none, 0⟩,
                 ⟨3, "MASTER_BATCH", none, 0⟩]
    machines := [⟨10, "ACTIVE"⟩]
    stocks := [⟨101, 1, 0, "pcs"⟩, ⟨102, 2, 100, "bags"⟩, ⟨103, 3, 50, "bags"⟩]
    ledger := []
    runs := []
    nextId := 200 }

/-- Spec Scenario B store: as `dbRun` but the raw-material balance is
10 bags. -/
def dbRunLow : DB :=
  { dbRun with stocks := [⟨101, 1, 0, "pcs"⟩, ⟨102, 2, 10, "bags"⟩, ⟨103, 3, 50, "bags"⟩] }

/-- Spec Scenario A request: produce 500 pcs, consume 30 bags of raw
material 2, no master-batch fields submitted. -/
def runBodyA : RunBody :=
  { product_id := some 1
    machine_id := some 10
    target_quantity := .nan
    actual_pieces_produced := .fin 500
    waste_quantity := none
    raw_material_id := some 2
    raw_material_bags_used := .fin 30
    master_batch_id := none
    master_batch_bags_used := .nan
    shift := "DAY" }

/-- Scenario A request with master-batch fields submitted
(`master_batch_id = 3`, `master_batch_bags_used = 5`) although product
1 declares no master-batch dependency. -/
def runBodyAMb : RunBody :=
  { runBodyA with master_batch_id := some 3, master_batch_bags_used := .fin 5 }

/-- Spec Scenario C request: no production and no raw-material
consumption, only the spurious master-batch fields. -/
def runBodyC : RunBody :=
  { runBodyA with
      actual_pieces_produced := .fin 0
      raw_material_id := none
      raw_material_bags_used := .fin 0
      master_batch_id := some 3
      master_batch_bags_used := .fin 5 }

/-- Fault set where only the raw-material ledger insert fails. -/
def faultsRmLedger : RunFaults :=
  { RunFaults.none with rmLedgerInsertFails := true }

/-- Fault set where only the fallback stock read of the manual
adjustment handler fails. -/
def faultsAdjustRead : AdjustFaults := ⟨false, true, false⟩

/-! ## Shared lemmas -/

/-- Inserting a ledger entry leaves the stock rows unchanged. -/
theorem DB.stocks_insertLedger (d : DB) (e : Nat → LedgerEntry) :
    (d.insertLedger e).stocks = d.stocks := rfl

/-- Updating a stock quantity leaves the ledger unchanged. -/
theorem DB.ledger_setStockQty (d : DB) (rid : Nat) (q : ℚ) :
    (d.setStockQty rid q).ledger = d.ledger := rfl

/-- The ledger sum of a product after one insert. -/
theorem DB.ledgerSum_insertLedger (d : DB) (e : Nat → LedgerEntry) (p : Nat) :
    (d.insertLedger e).ledgerSum p =
      d.ledgerSum p +
        if (e d.nextId).product_id = p then (e d.nextId).quantity_change else 0 := by
  by_cases h : (e d.nextId).product_id = p <;>
    simp [DB.insertLedger, DB.ledgerSum, List.filter_append, h]

/-- Updating a quantity only changes the `quantity` field of rows, so the id
projection of the stock list is unchanged. -/
theorem DB.stocks_map_id_setStockQty (d : DB) (rid : Nat) (q : ℚ) :
    (d.setStockQty rid q).stocks.map StockRow.id = d.stocks.map StockRow.id := by
  simp only [DB.setStockQty, List.map_map]
  refine List.map_congr_left fun r _ => ?_
  by_cases h : r.id = rid <;> simp [h]

/-- Updating a quantity leaves the product-id projection of the stock list
unchanged. -/
theorem DB.stocks_map_pid_setStockQty (d : DB) (rid : Nat) (q : ℚ) :
    (d.setStockQty rid q).stocks.map StockRow.product_id = d.stocks.map StockRow.product_id := by
  simp only [DB.setStockQty, List.map_map]
  refine List.map_congr_left fun r _ => ?_
  by_cases h : r.id = rid <;> simp [h]

/-- Well-formedness survives a quantity update and a ledger insert. -/
theorem DB.wellFormed_insert_set (d : DB) (e : Nat → LedgerEntry) (rid : Nat) (q : ℚ)
    (h : d.wellFormed) : ((d.insertLedger e).setStockQty rid q).wellFormed := by
  unfold DB.wellFormed at h ⊢
  rw [DB.stocks_map_id_setStockQty, DB.stocks_map_pid_setStockQty]
  exact h

/-- The single-balance adjustment step shared by both write paths:
append one ledger entry for the product of stock row `row` and set that
row's quantity to `row.quantity + q`, where `q` is the entry's
`quantity_change`.  This step preserves the balance/ledger-sum
invariant. -/
theorem DB.stockInSync_insert_set (d : DB) (e : Nat → LedgerEntry) (row : StockRow) (q : ℚ)
    (hrow : row ∈ d.stocks)
    (hpid : (e d.nextId).product_id = row.product_id)
    (hq : (e d.nextId).quantity_change = q)
    (hwf : d.wellFormed)
    (hsync : d.stockInSync) :
    ((d.insertLedger e).setStockQty row.id (row.quantity + q)).stockInSync := by
  obtain ⟨hids, hpids⟩ := hwf
  intro r' hr'
  have hledger : ((d.insertLedger e).setStockQty row.id (row.quantity + q)).ledgerSum r'.product_id
      = d.ledgerSum r'.product_id +
        if (e d.nextId).product_id = r'.product_id then (e d.nextId).quantity_change else 0 := by
    have : ((d.insertLedger e).setStockQty row.id (row.quantity + q)).ledgerSum r'.product_id
        = (d.insertLedger e).ledgerSum r'.product_id := rfl
    rw [this, DB.ledgerSum_insertLedger]
  rw [hledger]
  have hr'' : r' ∈ (d.stocks.map fun r =>
      if r.id = row.id then { r with quantity := row.quantity + q } else r) := hr'
  obtain ⟨r0, hr0, hr0eq⟩ := List.mem_map.mp hr''
  by_cases h0 : r0.id = row.id
  · have hr0row : r0 = row := by
      refine List.inj_on_of_nodup_map hids ?_ ?_ ?_
      · exact hr0
      · exact hrow
      · exact h0
    subst hr0row
    rw [if_pos rfl] at hr0eq
    subst hr0eq
    rw [if_pos (by simpa using hpid), hq, hsync r0 hr0]
  · rw [if_neg h0] at hr0eq
    subst hr0eq
    have hne : (e d.nextId).product_id ≠ r0.product_id := by
      rw [hpid]
      intro hcontra
      have : row = r0 := by
        refine List.inj_on_of_nodup_map hpids hrow hr0 hcontra
      exact h0 (this ▸ rfl)
    rw [if_neg hne, add_zero]
    exact hsync r0 hr0

/-- A row found by `stockById` is a stored row with that id. -/
theorem DB.stockById_mem (d : DB) (rid : Nat) (row : StockRow)
    (h : d.stockById rid = some row) : row ∈ d.stocks ∧ row.id = rid := by
  unfold DB.stockById at h
  exact ⟨List.mem_of_find?_eq_some h, by simpa using List.find?_some h⟩

/-- A row found by `stockByProduct` is a stored row of that product. -/
theorem DB.stockByProduct_mem (d : DB) (pid : Nat) (row : StockRow)
    (h : d.stockByProduct pid = some row) : row ∈ d.stocks ∧ row.product_id = pid := by
  unfold DB.stockByProduct at h
  exact ⟨List.mem_of_find?_eq_some h, by simpa using List.find?_some h⟩

/-- A successful `runLeg` preserves well-formedness and the
balance/ledger-sum invariant. -/
theorem runLeg_ok_invariants (lf rf uf : Bool) (le : RunErr) (pid : Nat) (delta : ℚ)
    (lu ln : String) (runId uid : Nat) (d d' : DB)
    (h : runLeg lf rf uf le pid delta lu ln runId uid d = .ok d')
    (hwf : d.wellFormed) (hsync : d.stockInSync) :
    d'.wellFormed ∧ d'.stockInSync := by
  unfold runLeg at h
  by_cases hlf : lf = true
  · rw [if_pos hlf] at h
    exact absurd h (by simp)
  · rw [if_neg hlf] at h
    simp only [] at h
    unfold updateProductStock at h
    by_cases hrf : rf = true
    · rw [if_pos hrf] at h
      exact absurd h (by simp)
    · rw [if_neg hrf] at h
      revert h
      cases hfind : (d.insertLedger fun i =>
          ⟨i, pid, "production_runs", some runId, delta, lu, ln, uid⟩).stockByProduct pid with
      | none => intro h; exact absurd h (by simp)
      | some stockRow =>
        intro h
        dsimp only at h
        by_cases huf : uf = true
        · rw [if_pos huf] at h
          exact absurd h (by simp)
        · rw [if_neg huf] at h
          simp only [Except.ok.injEq] at h
          obtain ⟨hmem, hprod⟩ := DB.stockByProduct_mem _ _ _ hfind
          rw [DB.stocks_insertLedger] at hmem
          subst h
          constructor
          · exact DB.wellFormed_insert_set d _ _ _ hwf
          · exact DB.stockInSync_insert_set d _ stockRow delta hmem
              (by simpa using hprod.symm) rfl hwf hsync

/-- Inversion of a successful `Except.bind`. -/
theorem Except.bind_ok_inv {ε α β : Type} {x : Except ε α} {g : α → Except ε β} {b : β}
    (h : x.bind g = .ok b) : ∃ a, x = .ok a ∧ g a = .ok b := by
  cases x with
  | error e => simp [Except.bind] at h
  | ok a => exact ⟨a, rfl, by simpa [Except.bind] using h⟩

/-- A successful commit phase preserves well-formedness and the
balance/ledger-sum invariant. -/
theorem runCommitLegs_ok_invariants (pid : Nat) (body : RunBody) (f : RunFaults)
    (runId uid : Nat) (d d' : DB)
    (h : runCommitLegs pid body f runId uid d = .ok d')
    (hwf : d.wellFormed) (hsync : d.stockInSync) :
    d'.wellFormed ∧ d'.stockInSync := by
  unfold runCommitLegs at h
  obtain ⟨d1, h1, h⟩ := Except.bind_ok_inv h
  obtain ⟨d2, h2, h3⟩ := Except.bind_ok_inv h
  have inv1 : d1.wellFormed ∧ d1.stockInSync := by
    split at h1
    · exact runLeg_ok_invariants _ _ _ _ _ _ _ _ _ _ _ _ h1 hwf hsync
    · cases h1; exact ⟨hwf, hsync⟩
  have inv2 : d2.wellFormed ∧ d2.stockInSync := by
    split at h2
    · exact runLeg_ok_invariants _ _ _ _ _ _ _ _ _ _ _ _ h2 inv1.1 inv1.2
    · cases h2; exact inv1
  split at h3
  · exact runLeg_ok_invariants _ _ _ _ _ _ _ _ _ _ _ _ h3 inv2.1 inv2.2
  · cases h3; exact inv2


/-- A successful fallback identifies the stock row read and the store
written. -/
theorem adjustFallback_success (psid : Nat) (qc : ℚ) (f : AdjustFaults) (d1 : DB)
    (resp : AdjustResp) (d' : DB)
    (h : adjustFallback psid qc f d1 = (resp, d'))
    (hs : resp.success = true) :
    ∃ row, d1.stockById psid = some row ∧
      d' = d1.setStockQty psid (row.quantity + qc) := by
  unfold adjustFallback at h
  split at h
  · cases h; exact absurd hs (by simp)
  · split at h
    · cases h; exact absurd hs (by simp)
    · split at h
      · cases h; exact absurd hs (by simp)
      · rename_i row hrow hupd
        cases h
        exact ⟨row, hrow, rfl⟩

/-- A successful manual adjustment whose `product_stock_id` denotes the
stock row of its `product_id` preserves well-formedness and the
balance/ledger-sum invariant. -/
theorem stockAdjustPOST_success_invariants (u : Option Nat) (b : AdjustBody)
    (f : AdjustFaults) (d : DB) (resp : AdjustResp) (d' : DB)
    (h : stockAdjustPOST u b f d = (resp, d'))
    (hs : resp.success = true)
    (hwf : d.wellFormed)
    (hids : ∀ psid row, b.product_stock_id = some psid → d.stockById psid = some row →
      b.product_id = some row.product_id)
    (hsync : d.stockInSync) : d'.wellFormed ∧ d'.stockInSync := by
  unfold stockAdjustPOST at h
  split at h
  · cases h; exact absurd hs (by simp)
  · split at h
    · cases h; exact absurd hs (by simp)
    · cases h; exact absurd hs (by simp)
    · split at h
      · cases h; exact absurd hs (by simp)
      · split at h
        · cases h; exact absurd hs (by simp)
        · split at h
          · cases h; exact absurd hs (by simp)
          · rename_i uid x1 x2 psid pid hpseq hpideq hmiss hqty hins
            obtain ⟨row, hrow, hd'⟩ := adjustFallback_success _ _ _ _ _ _ h hs
            have hrow' : d.stockById psid = some row := hrow
            obtain ⟨hmem, hid⟩ := DB.stockById_mem d psid row hrow'
            have hpid2 : b.product_id = some row.product_id := hids psid row hpseq hrow'
            have hpr : pid = row.product_id := by
              rw [hpideq] at hpid2
              exact Option.some.inj hpid2
            subst hd'
            rw [← hid]
            exact ⟨DB.wellFormed_insert_set _ _ _ _ hwf,
              DB.stockInSync_insert_set d _ row _ hmem (by simp [hpr]) rfl hwf hsync⟩

/-- A successful production run preserves well-formedness and the
balance/ledger-sum invariant. -/
theorem productionRunPOST_success_invariants (u : Option Nat) (b : RunBody)
    (f : RunFaults) (d : DB) (resp : RunResp) (d' : DB)
    (h : productionRunPOST u b f d = (resp, d'))
    (hs : resp.success = true)
    (hwf : d.wellFormed) (hsync : d.stockInSync) : d'.wellFormed ∧ d'.stockInSync := by
  unfold productionRunPOST at h
  split at h
  · cases h; exact absurd hs (by simp)
  · split at h
    · cases h; exact absurd hs (by simp)
    · cases h; exact absurd hs (by simp)
    · split at h
      · cases h; exact absurd hs (by simp)
      · split at h
        · cases h; exact absurd hs (by simp)
        · split at h
          · cases h; exact absurd hs (by simp)
          · split at h
            · cases h; exact absurd hs (by simp)
            · rename_i hlegs
              cases h
              exact runCommitLegs_ok_invariants _ _ _ _ _ _ _ hlegs hwf hsync

/-! ## Claim theorems -/

/-- C1: a manual adjustment of −20 against a balance of 15 is NOT
rejected by the handler: `POST /api/stock-adjust` reports success,
drives the stored balance to −5 and appends the −20 ledger entry,
whereas the schema's own `adjust_stock` routine — which the handler
never calls — rejects the same request with its insufficient-stock
exception and changes nothing. -/
theorem c1_negative_adjustment_not_rejected :
    (stockAdjustPOST (some 42) adjBodyNeg AdjustFaults.none dbAdjust).1.success = true ∧
    ((stockAdjustPOST (some 42) adjBodyNeg AdjustFaults.none dbAdjust).2.stockById 7).map
      StockRow.quantity = some (-5) ∧
    (stockAdjustPOST (some 42) adjBodyNeg AdjustFaults.none dbAdjust).2.ledger.map
      LedgerEntry.quantity_change = [-20] ∧
    adjust_stock 7 1 (-20) "bags" "manual correction" 42 dbAdjust =
      .error (.insufficientStock 15 (-20)) := by
  refine ⟨rfl, ?_, ?_, ?_⟩
  · norm_num +decide [stockAdjustPOST, adjustFallback, dbAdjust, adjBodyNeg, AdjustFaults.none,
      DB.insertLedger, DB.setStockQty, DB.stockById, JsNum.isFinite, JsNum.toRat, List.find?]
  · norm_num +decide [stockAdjustPOST, adjustFallback, dbAdjust, adjBodyNeg, AdjustFaults.none,
      DB.insertLedger, DB.setStockQty, DB.stockById, JsNum.isFinite, JsNum.toRat, List.find?]
  · norm_num [adjust_stock, dbAdjust, List.find?]

/-- C3: the manual adjustment handler is not atomic.  In the execution
where the ledger insert succeeds and the fallback stock read then
fails, the handler reports failure yet leaves the new ledger entry
persisted with the balance unchanged — a journal entry without its
effected balance change. -/
theorem c3_adjustment_not_atomic :
    (stockAdjustPOST (some 42) adjBodyPlus faultsAdjustRead dbAdjust).1.success = false ∧
    (stockAdjustPOST (some 42) adjBodyPlus faultsAdjustRead dbAdjust).2.ledger.map
      LedgerEntry.quantity_change = [5] ∧
    ((stockAdjustPOST (some 42) adjBodyPlus faultsAdjustRead dbAdjust).2.stockById 7).map
      StockRow.quantity = some 15 := by
  refine ⟨rfl, ?_, ?_⟩ <;>
    norm_num +decide [stockAdjustPOST, adjustFallback, dbAdjust, adjBodyPlus, faultsAdjustRead,
      DB.insertLedger, DB.setStockQty, DB.stockById, JsNum.isFinite, JsNum.toRat, List.find?]

/-- C2: for a finished good with no master-batch dependency
(`parent_master_batch_id = null`), submitted master-batch values are
NOT ignored by the commit phase.  On Scenario C's request
(`master_batch_id = 3`, `master_batch_bags_used = 5`) the handler
nulls the master-batch fields of the persisted run record, yet still
creates a master-batch ledger entry of −5 and debits the master-batch
balance from 50 to 45. -/
theorem c2_master_batch_leg_applied_without_dependency :
    (productionRunPOST (some 42) runBodyC RunFaults.none dbRun).1.success = true ∧
    (productionRunPOST (some 42) runBodyC RunFaults.none dbRun).2.runs.map
      (fun r => (r.master_batch_id, r.master_batch_bags_used)) = [(none, 0)] ∧
    (productionRunPOST (some 42) runBodyC RunFaults.none dbRun).2.ledger.map
      (fun e => (e.product_id, e.quantity_change)) = [(3, -5)] ∧
    ((productionRunPOST (some 42) runBodyC RunFaults.none dbRun).2.stockByProduct 3).map
      StockRow.quantity = some 45 := by
  refine ⟨rfl, ?_, ?_, ?_⟩ <;>
    norm_num +decide [productionRunPOST, runPreflight, runPreflightMb, runCommitLegs,
      runLeg, updateProductStock, runInsertData, DB.insertRun, DB.insertLedger,
      DB.setStockQty, DB.stockByProduct, DB.productById, DB.machineById,
      JsNum.isFinite, JsNum.toRat, JsNum.gt, JsNum.lt, JsNum.truthy,
      Except.bind, List.find?, dbRun, runBodyC, runBodyA, RunFaults.none]

/-- C5: on Scenario A proper (no master-batch fields submitted) the
accepted run behaves as claimed — finished-good balance +500,
raw-material balance 100 → 70, exactly two ledger entries carrying the
new run's id — but the claim's universal statement fails: the same
store and run with the spurious master-batch fields submitted is also
accepted for the dependency-free product and creates three ledger
entries, debiting the master batch. -/
theorem c5_scenario_a_and_spurious_master_batch_leg :
    ((productionRunPOST (some 42) runBodyA RunFaults.none dbRun).1.success = true ∧
     (productionRunPOST (some 42) runBodyA RunFaults.none dbRun).1.runId = some 200 ∧
     (productionRunPOST (some 42) runBodyA RunFaults.none dbRun).2.ledger.map
       (fun e => (e.product_id, e.quantity_change, e.transaction_id)) =
       [(1, 500, some 200), (2, -30, some 200)] ∧
     ((productionRunPOST (some 42) runBodyA RunFaults.none dbRun).2.stockByProduct 1).map
       StockRow.quantity = some 500 ∧
     ((productionRunPOST (some 42) runBodyA RunFaults.none dbRun).2.stockByProduct 2).map
       StockRow.quantity = some 70) ∧
    ((productionRunPOST (some 42) runBodyAMb RunFaults.none dbRun).1.success = true ∧
     (productionRunPOST (some 42) runBodyAMb RunFaults.none dbRun).2.ledger.length = 3 ∧
     ((productionRunPOST (some 42) runBodyAMb RunFaults.none dbRun).2.stockByProduct 3).map
       StockRow.quantity = some 45) := by
  refine ⟨⟨rfl, rfl, ?_, ?_, ?_⟩, rfl, ?_, ?_⟩ <;>
    norm_num +decide [productionRunPOST, runPreflight, runPreflightMb, runCommitLegs,
      runLeg, updateProductStock, runInsertData, DB.insertRun, DB.insertLedger,
      DB.setStockQty, DB.stockByProduct, DB.productById, DB.machineById,
      JsNum.isFinite, JsNum.toRat, JsNum.gt, JsNum.lt, JsNum.truthy,
      Except.bind, List.find?, dbRun, runBodyA, runBodyAMb, RunFaults.none]

/-- C6: a production run can terminate in a silently partial state.
With the raw-material ledger insert failing after the run record and
the finished-good leg have committed, the handler returns an ordinary
500 failure (there is no distinct partial-failure kind among its
response errors), leaving the run record, the finished-good ledger
entry, and the finished-good balance change in place with no
compensation. -/
theorem c6_partial_run_reported_as_ordinary_failure :
    (productionRunPOST (some 42) runBodyA faultsRmLedger dbRun).1 =
      ⟨false, 500, some .rmLedgerInsertFailed, none⟩ ∧
    (productionRunPOST (some 42) runBodyA faultsRmLedger dbRun).2.runs.length = 1 ∧
    (productionRunPOST (some 42) runBodyA faultsRmLedger dbRun).2.ledger.map
      (fun e => (e.product_id, e.quantity_change)) = [(1, 500)] ∧
    ((productionRunPOST (some 42) runBodyA faultsRmLedger dbRun).2.stockByProduct 1).map
      StockRow.quantity = some 500 ∧
    ((productionRunPOST (some 42) runBodyA faultsRmLedger dbRun).2.stockByProduct 2).map
      StockRow.quantity = some 100 := by
  refine ⟨rfl, rfl, ?_, ?_, ?_⟩ <;>
    norm_num +decide [productionRunPOST, runPreflight, runPreflightMb, runCommitLegs,
      runLeg, updateProductStock, runInsertData, DB.insertRun, DB.insertLedger,
      DB.setStockQty, DB.stockByProduct, DB.productById, DB.machineById,
      JsNum.isFinite, JsNum.toRat, JsNum.gt, JsNum.lt, JsNum.truthy,
      Except.bind, List.find?, dbRun, runBodyA, faultsRmLedger, RunFaults.none]

/-- C7 counterexample: the balance = ledger-sum equality is not
maintained after every completed operation.  Starting from a store
where every balance equals its ledger sum, the manual adjustment whose
`product_id` names product 1 but whose `product_stock_id` names the
stock row of product 2 completes successfully — the handler never
checks the two ids against each other — and afterwards product 1 has a
ledger sum of 5 against a stored balance of 0. -/
theorem c7_counterexample_mismatched_ids :
    dbTwoProducts.stockInSync ∧
    (stockAdjustPOST (some 42) adjBodyMismatch AdjustFaults.none dbTwoProducts).1.success = true ∧
    ¬ (stockAdjustPOST (some 42) adjBodyMismatch AdjustFaults.none dbTwoProducts).2.stockInSync := by
  refine ⟨?_, rfl, ?_⟩
  · intro r hr
    simp only [dbTwoProducts, List.mem_cons, List.not_mem_nil, or_false] at hr
    rcases hr with rfl | rfl <;> simp [DB.ledgerSum, dbTwoProducts]
  · intro hsync
    have hmem : (⟨100, 1, 0, "bags"⟩ : StockRow) ∈
        (stockAdjustPOST (some 42) adjBodyMismatch AdjustFaults.none dbTwoProducts).2.stocks := by
      norm_num +decide [stockAdjustPOST, adjustFallback, dbTwoProducts, adjBodyMismatch,
        AdjustFaults.none, DB.insertLedger, DB.setStockQty, DB.stockById,
        JsNum.isFinite, JsNum.toRat, List.find?]
    have hbad := hsync _ hmem
    norm_num +decide [stockAdjustPOST, adjustFallback, dbTwoProducts, adjBodyMismatch,
      AdjustFaults.none, DB.insertLedger, DB.setStockQty, DB.stockById, DB.ledgerSum,
      JsNum.isFinite, JsNum.toRat, List.find?] at hbad

/-- C7 (amended): for every core operation — manual adjustment or
production run — that completes successfully on a well-formed store
whose manual-adjustment `product_stock_id` denotes the stock row of
its `product_id`, the balance = ledger-sum equality is preserved:
if it held for every product before the operation, it holds for every
product afterwards.  (As stated the claim fails: a successful
adjustment with mismatched ids breaks the equality.) -/
theorem c7_amended_completed_ops_preserve_ledger_sum (op : CoreOp) (d : DB)
    (hwf : d.wellFormed) (hids : op.consistentIds d) (hsync : d.stockInSync)
    (hs : (op.apply d).1 = true) : (op.apply d).2.stockInSync := by
  cases op with
  | adjust u b f =>
    exact (stockAdjustPOST_success_invariants u b f d _ _ rfl hs hwf hids hsync).2
  | run u b f =>
    exact (productionRunPOST_success_invariants u b f d _ _ rfl hs hwf hsync).2

/-- Witness for the amended C7 at a concrete successful adjustment with
matching ids. -/
theorem c7_amended_witness :
    ((CoreOp.adjust (some 42) ⟨some 100, some 1, .fin 5, "bags", "receiving"⟩
      AdjustFaults.none).apply dbTwoProducts).2.stockInSync := by
  refine c7_amended_completed_ops_preserve_ledger_sum _ _ ⟨by decide, by decide⟩ ?_ ?_ rfl
  · intro psid row h1 h2
    cases h1
    simp only [dbTwoProducts, DB.stockById, List.find?] at h2
    norm_num at h2
    rw [← h2]
  · intro r hr
    simp only [dbTwoProducts, List.mem_cons, List.not_mem_nil, or_false] at hr
    rcases hr with rfl | rfl <;> simp [DB.ledgerSum, dbTwoProducts]

/-- The stock-adjustment response is either a failure or exactly the
handler's literal success body, which carries no ledger identity. -/
theorem adjustFallback_resp_cases (psid : Nat) (qc : ℚ) (f : AdjustFaults) (d1 : DB) :
    (adjustFallback psid qc f d1).1.success = false ∨
      (adjustFallback psid qc f d1).1 = ⟨true, 200, none, none⟩ := by
  unfold adjustFallback
  split
  · exact Or.inl rfl
  · split
    · exact Or.inl rfl
    · split
      · exact Or.inl rfl
      · exact Or.inr rfl

/-- Response dichotomy for the whole stock-adjustment handler. -/
theorem stockAdjustPOST_resp_cases (u : Option Nat) (b : AdjustBody) (f : AdjustFaults)
    (d : DB) :
    (stockAdjustPOST u b f d).1.success = false ∨
      (stockAdjustPOST u b f d).1 = ⟨true, 200, none, none⟩ := by
  unfold stockAdjustPOST
  split
  · exact Or.inl rfl
  · split
    · exact Or.inl rfl
    · exact Or.inl rfl
    · split
      · exact Or.inl rfl
      · split
        · exact Or.inl rfl
        · split
          · exact Or.inl rfl
          · exact adjustFallback_resp_cases _ _ _ _

/-- C8 counterexample: a concrete successful manual adjustment whose
response carries no ledger identity — the success payload is
`{ success: true }` alone. -/
theorem c8_counterexample_success_without_ledger_id :
    (stockAdjustPOST (some 42) adjBodyPlus AdjustFaults.none dbAdjust).1.success = true ∧
    (stockAdjustPOST (some 42) adjBodyPlus AdjustFaults.none dbAdjust).1.ledgerId = none :=
  ⟨rfl, rfl⟩

/-- C8 (amended): every successful manual stock-adjustment request
returns precisely `{ success: true }` — status 200, no error, and no
identity of the newly created ledger entry (the handler's ledger
insert does not read the minted id back, although the schema's unused
`adjust_stock` routine would return it). -/
theorem c8_amended_success_response_is_bare (u : Option Nat) (b : AdjustBody)
    (f : AdjustFaults) (d : DB)
    (hs : (stockAdjustPOST u b f d).1.success = true) :
    (stockAdjustPOST u b f d).1 = ⟨true, 200, none, none⟩ := by
  rcases stockAdjustPOST_resp_cases u b f d with h | h
  · rw [hs] at h; exact absurd h (by simp)
  · exact h

/-- Witness for the amended C8 at a concrete successful call. -/
theorem c8_amended_witness :
    (stockAdjustPOST (some 42) adjBodyPlus AdjustFaults.none dbAdjust).1 =
      ⟨true, 200, none, none⟩ :=
  c8_amended_success_response_is_bare (some 42) adjBodyPlus AdjustFaults.none dbAdjust rfl

/-- C10: a manual adjustment whose `quantity_change` is zero or not a
finite number is rejected with a 400 validation error before any state
change: the store is returned exactly as it was. -/
theorem c10_zero_or_nonfinite_quantity_rejected (uid : Nat) (b : AdjustBody)
    (f : AdjustFaults) (d : DB)
    (hq : b.quantity_change.isFinite = false ∨ b.quantity_change = .fin 0) :
    ∃ e, stockAdjustPOST (some uid) b f d = (⟨false, 400, some e, none⟩, d) := by
  unfold stockAdjustPOST
  rcases hps : b.product_stock_id with _ | psid <;>
    rcases hpd : b.product_id with _ | pid
  · exact ⟨.missingFields, rfl⟩
  · exact ⟨.missingFields, rfl⟩
  · exact ⟨.missingFields, rfl⟩
  · dsimp only
    by_cases hmn : (b.uom = "" ∨ b.notes = "")
    · rw [if_pos hmn]
      exact ⟨.missingFields, rfl⟩
    · rw [if_neg hmn]
      have hcond : ¬ b.quantity_change.isFinite = true ∨ b.quantity_change = .fin 0 := by
        rcases hq with h | h
        · exact Or.inl (by simp [h])
        · exact Or.inr h
      rw [if_pos hcond]
      exact ⟨.badQuantity, rfl⟩

/-- Witness for C10 at a concrete zero-delta request. -/
theorem c10_witness :
    ∃ e, stockAdjustPOST (some 42) ⟨some 7, some 1, .fin 0, "bags", "zero"⟩
      AdjustFaults.none dbAdjust = (⟨false, 400, some e, none⟩, dbAdjust) :=
  c10_zero_or_nonfinite_quantity_rejected 42 _ AdjustFaults.none dbAdjust (Or.inr rfl)

/-- C9: an item of the reorder projection built from a fetched row is
listed exactly when the row's quantity is ≤ its reorder level — the
page's filter is `item.quantity <= item.reorderLevel`, so a quantity
exactly equal to the reorder level counts as below reorder. -/
theorem c9_below_reorder_iff_quantity_le_level (rows : List StockJoinRow)
    (r : StockJoinRow) (hr : r ∈ rows) :
    toReorderItem r ∈ reorderItems rows ↔ r.quantity ≤ r.reorder_level := by
  unfold reorderItems
  rw [List.mem_mergeSort, List.mem_filter]
  constructor
  · intro h
    simpa [toReorderItem] using h.2
  · intro h
    exact ⟨List.mem_map_of_mem toReorderItem hr, by simpa [toReorderItem] using h⟩

/-- Witness for C9 at a row whose quantity equals its reorder level:
it is listed. -/
theorem c9_witness :
    toReorderItem ⟨5, "bags", "RM-01", "Resin", "RAW_MATERIAL", 5⟩ ∈
      reorderItems [⟨5, "bags", "RM-01", "Resin", "RAW_MATERIAL", 5⟩] :=
  (c9_below_reorder_iff_quantity_le_level _ _ (by simp)).mpr (by norm_num)

/-- A pre-flight rejection propagates to the handler's response as a
400 error with the store untouched. -/
theorem runPOST_of_preflight_error (uid : Nat) (body : RunBody) (f : RunFaults) (d : DB)
    (pid mid : Nat) (e : RunErr)
    (hpid : body.product_id = some pid) (hmid : body.machine_id = some mid)
    (hshift : ¬ body.shift = "")
    (hpre : runPreflight pid mid body f d = .error e) :
    productionRunPOST (some uid) body f d = (⟨false, 400, some e, none⟩, d) := by
  unfold productionRunPOST
  rw [hpid, hmid]
  dsimp only
  rw [if_neg hshift, hpre]

/-- When a valid request's non-zero consumption leg exceeds the known
balance — either the raw-material leg, or the master-batch leg with
the raw-material check passing or skipped — the pre-flight phase ends
with the corresponding insufficiency error. -/
theorem runPreflight_insufficient (pid mid : Nat) (body : RunBody) (f : RunFaults) (d : DB)
    (product : Product) (machine : Machine)
    (hshift : body.shift = "DAY" ∨ body.shift = "NIGHT")
    (hact : body.actual_pieces_produced.isFinite = true ∧
      body.actual_pieces_produced.lt (.fin 0) = false)
    (hrmb : body.raw_material_bags_used.isFinite = true ∧
      body.raw_material_bags_used.lt (.fin 0) = false)
    (hf1 : f.productSelectFails = false)
    (hprod : d.productById pid = some product)
    (htype : product.type = "FINISHED_GOOD")
    (hmb : product.parent_master_batch_id.isSome = true →
      body.master_batch_bags_used.isFinite = true ∧
        body.master_batch_bags_used.lt (.fin 0) = false)
    (hf2 : f.machineSelectFails = false)
    (hmach : d.machineById mid = some machine)
    (hstatus : machine.status = "ACTIVE")
    (hcase :
      (∃ rmid rmRow, body.raw_material_id = some rmid ∧
        body.raw_material_bags_used.gt (.fin 0) = true ∧
        f.rmStockSelectFails = false ∧
        d.stockByProduct rmid = some rmRow ∧
        JsNum.lt (.fin rmRow.quantity) body.raw_material_bags_used = true) ∨
      ((body.raw_material_id = none ∨
        body.raw_material_bags_used.gt (.fin 0) = false ∨
        (∃ rmid rmRow, body.raw_material_id = some rmid ∧
          f.rmStockSelectFails = false ∧
          d.stockByProduct rmid = some rmRow ∧
          JsNum.lt (.fin rmRow.quantity) body.raw_material_bags_used = false)) ∧
       ∃ mbid mbRow, body.master_batch_id = some mbid ∧
        body.master_batch_bags_used.gt (.fin 0) = true ∧
        f.mbStockSelectFails = false ∧
        d.stockByProduct mbid = some mbRow ∧
        JsNum.lt (.fin mbRow.quantity) body.master_batch_bags_used = true)) :
    ∃ avail req,
      runPreflight pid mid body f d = .error (.insufficientRawMaterial avail req) ∨
      runPreflight pid mid body f d = .error (.insufficientMasterBatch avail req) := by
  unfold runPreflight
  rw [if_neg (not_not_intro hshift)]
  rw [if_neg (by rw [not_or]; exact ⟨not_not_intro hact.1, by simp [hact.2]⟩)]
  rw [if_neg (by rw [not_or]; exact ⟨not_not_intro hrmb.1, by simp [hrmb.2]⟩)]
  rw [if_neg (by simp [hf1]), hprod]
  dsimp only
  rw [if_neg (not_not_intro htype)]
  rw [if_neg (by
    rintro ⟨h1, h2⟩
    rcases hmb h1 with ⟨ha, hb⟩
    rcases h2 with h2 | h2
    · exact h2 ha
    · rw [hb] at h2; exact Bool.false_ne_true h2)]
  rw [if_neg (by simp [hf2]), hmach]
  dsimp only
  rw [if_neg (not_not_intro hstatus)]
  rcases hcase with ⟨rmid, rmRow, h1, h2, h3, h4, h5⟩ | ⟨hrm, mbid, mbRow, g1, g2, g3, g4, g5⟩
  · rw [h1, h2]
    dsimp only
    rw [if_neg (by simp [h3]), h4]
    dsimp only
    rw [if_pos h5]
    exact ⟨rmRow.quantity, body.raw_material_bags_used.toRat, Or.inl rfl⟩
  · have hmbgoal : ∃ avail req,
        runPreflightMb product body f d = .error (.insufficientRawMaterial avail req) ∨
        runPreflightMb product body f d = .error (.insufficientMasterBatch avail req) := by
      unfold runPreflightMb
      rw [g1, g2]
      dsimp only
      rw [if_neg (by simp [g3]), g4]
      dsimp only
      rw [if_pos g5]
      exact ⟨mbRow.quantity, body.master_batch_bags_used.toRat, Or.inr rfl⟩
    rcases hrm with hnone | hgt | ⟨rmid, rmRow, k1, k2, k3, k4⟩
    · rw [hnone]
      exact hmbgoal
    · rcases hid : body.raw_material_id with _ | rmid
      · exact hmbgoal
      · rw [hgt]
        exact hmbgoal
    · rw [k1]
      rcases hgt2 : body.raw_material_bags_used.gt (.fin 0) with _ | _
      · exact hmbgoal
      · dsimp only
        rw [if_neg (by simp [k2]), k3]
        dsimp only
        rw [if_neg (by simp [k4])]
        exact hmbgoal

/-- C4: a production-run request that passes authentication and every
validation, but whose non-zero consumption leg (raw-material, or
master-batch after the raw-material check passes or is skipped) asks
for more than the currently stored balance, is rejected with the
corresponding insufficient-stock error and has zero side effects: the
store — runs, ledger, and balances — is returned exactly unchanged. -/
theorem c4_insufficient_consumption_rejected (uid : Nat) (body : RunBody) (f : RunFaults)
    (d : DB) (pid mid : Nat) (product : Product) (machine : Machine)
    (hpid : body.product_id = some pid) (hmid : body.machine_id = some mid)
    (hshift : body.shift = "DAY" ∨ body.shift = "NIGHT")
    (hact : body.actual_pieces_produced.isFinite = true ∧
      body.actual_pieces_produced.lt (.fin 0) = false)
    (hrmb : body.raw_material_bags_used.isFinite = true ∧
      body.raw_material_bags_used.lt (.fin 0) = false)
    (hf1 : f.productSelectFails = false)
    (hprod : d.productById pid = some product)
    (htype : product.type = "FINISHED_GOOD")
    (hmb : product.parent_master_batch_id.isSome = true →
      body.master_batch_bags_used.isFinite = true ∧
        body.master_batch_bags_used.lt (.fin 0) = false)
    (hf2 : f.machineSelectFails = false)
    (hmach : d.machineById mid = some machine)
    (hstatus : machine.status = "ACTIVE")
    (hcase :
      (∃ rmid rmRow, body.raw_material_id = some rmid ∧
        body.raw_material_bags_used.gt (.fin 0) = true ∧
        f.rmStockSelectFails = false ∧
        d.stockByProduct rmid = some rmRow ∧
        JsNum.lt (.fin rmRow.quantity) body.raw_material_bags_used = true) ∨
      ((body.raw_material_id = none ∨
        body.raw_material_bags_used.gt (.fin 0) = false ∨
        (∃ rmid rmRow, body.raw_material_id = some rmid ∧
          f.rmStockSelectFails = false ∧
          d.stockByProduct rmid = some rmRow ∧
          JsNum.lt (.fin rmRow.quantity) body.raw_material_bags_used = false)) ∧
       ∃ mbid mbRow, body.master_batch_id = some mbid ∧
        body.master_batch_bags_used.gt (.fin 0) = true ∧
        f.mbStockSelectFails = false ∧
        d.stockByProduct mbid = some mbRow ∧
        JsNum.lt (.fin mbRow.quantity) body.master_batch_bags_used = true)) :
    ∃ avail req,
      productionRunPOST (some uid) body f d =
        (⟨false, 400, some (.insufficientRawMaterial avail req), none⟩, d) ∨
      productionRunPOST (some uid) body f d =
        (⟨false, 400, some (.insufficientMasterBatch avail req), none⟩, d) := by
  have hshift' : ¬ body.shift = "" := by
    rcases hshift with h | h <;> simp [h]
  obtain ⟨avail, req, hc⟩ := runPreflight_insufficient pid mid body f d product machine
    hshift hact hrmb hf1 hprod htype hmb hf2 hmach hstatus hcase
  refine ⟨avail, req, ?_⟩
  rcases hc with hc | hc
  · exact Or.inl (runPOST_of_preflight_error uid body f d pid mid _ hpid hmid hshift' hc)
  · exact Or.inr (runPOST_of_preflight_error uid body f d pid mid _ hpid hmid hshift' hc)

/-- Witness for C4 at spec Scenario B: raw-material balance 10 bags,
requested consumption 30 bags. -/
theorem c4_witness :
    ∃ avail req,
      productionRunPOST (some 42) runBodyA RunFaults.none dbRunLow =
        (⟨false, 400, some (.insufficientRawMaterial avail req), none⟩, dbRunLow) ∨
      productionRunPOST (some 42) runBodyA RunFaults.none dbRunLow =
        (⟨false, 400, some (.insufficientMasterBatch avail req), none⟩, dbRunLow) := by
  refine c4_insufficient_consumption_rejected 42 runBodyA RunFaults.none dbRunLow 1 10
    ⟨1, "FINISHED_GOOD", none, 0⟩ ⟨10, "ACTIVE"⟩ rfl rfl (Or.inl rfl) ⟨rfl, rfl⟩ ⟨rfl, ?_⟩
    rfl ?_ rfl (by intro h; exact absurd h (by decide)) rfl ?_ rfl ?_
  · show JsNum.lt (.fin 30) (.fin 0) = false
    simp [JsNum.lt]
  · show dbRunLow.productById 1 = some ⟨1, "FINISHED_GOOD", none, 0⟩
    norm_num [DB.productById, dbRunLow, dbRun, List.find?]
  · show dbRunLow.machineById 10 = some ⟨10, "ACTIVE"⟩
    norm_num [DB.machineById, dbRunLow, dbRun, List.find?]
  · refine Or.inl ⟨2, ⟨102, 2, 10, "bags"⟩, rfl, ?_, rfl, ?_, ?_⟩
    · show JsNum.gt (.fin 30) (.fin 0) = true
      simp [JsNum.gt, JsNum.lt]
    · show dbRunLow.stockByProduct 2 = some ⟨102, 2, 10, "bags"⟩
      norm_num [DB.stockByProduct, dbRunLow, dbRun, List.find?]
    · show JsNum.lt (.fin 10) (.fin 30) = true
      simp [JsNum.lt]
      norm_num
